import Mathlib

/-!
Shallow embedding of the Wallpaper Publisher desktop utility
(`wallpaper_publisher.py`): environment loading and validation, the
readiness predicates of the form, AI-metadata application, code-fence
stripping of the AI response, tag parsing, the publish sequence
(storage upload, then database insert) and the clear action.

Text is modelled as `List Char`; Python `None`-able strings as
`Option (List Char)`; the process environment as a partial map from
variable names to values.  External calls (storage upload, database
insert) are modelled by their result, passed in as an oracle, while
the calls actually issued are collected in an event trace.
-/

namespace WP

/-- Python whitespace, as recognised by `str.strip()` (ASCII range). -/
def isPySpace (c : Char) : Bool :=
  c == ' ' || c == '\t' || c == '\n' || c == '\r' || c == '\x0b' || c == '\x0c'

/-- `s.lstrip()`. -/
def pyLStrip (s : List Char) : List Char := s.dropWhile isPySpace

/-- `s.rstrip()`. -/
def pyRStrip (s : List Char) : List Char := (s.reverse.dropWhile isPySpace).reverse

/-- `s.strip()`. -/
def pyStrip (s : List Char) : List Char := pyRStrip (pyLStrip s)

/-- `s.strip('"')`: double quotes removed from both ends. -/
def pyStripQuotes (s : List Char) : List Char :=
  ((s.dropWhile (· == '"')).reverse.dropWhile (· == '"')).reverse

/-- Python truthiness of a string: non-empty. -/
def pyTruthy (s : List Char) : Bool := !s.isEmpty

/-- Python truthiness of an `Optional[str]`: neither `None` nor empty. -/
def pyTruthyOpt (o : Option (List Char)) : Bool :=
  match o with
  | none => false
  | some s => !s.isEmpty

/-- Rendering of an `Optional[str]` inside an f-string: `None` prints as `"None"`. -/
def pyFStr (o : Option (List Char)) : List Char := o.getD "None".toList

/-- `p.startswith(q)` on character lists. -/
def startsWith : List Char → List Char → Bool
  | [], _ => true
  | _ :: _, [] => false
  | p :: ps, c :: cs => p == c && startsWith ps cs

/-- `s.split(',')`-style split at a separator character; Python yields `[""]`
on the empty string, and empty segments between adjacent separators. -/
def splitOn (sep : Char) : List Char → List (List Char)
  | [] => [[]]
  | c :: cs =>
    let r := splitOn sep cs
    if c == sep then [] :: r
    else
      match r with
      | [] => [[c]]
      | h :: t => (c :: h) :: t

/-- `pathlib.Path(p).suffix`: the final extension of the file name, dot
included; empty when the name has no dot, starts with its only dot, or
ends with the dot. -/
def pySuffix (p : List Char) : List Char :=
  let name := (p.reverse.takeWhile (· != '/')).reverse
  let afterRev := name.reverse.takeWhile (· != '.')
  if afterRev.length = name.length then []
  else
    let i := name.length - afterRev.length - 1
    if 0 < i ∧ i < name.length - 1 then name.drop i else []

/-- The process environment: variable name to value, `none` when unset. -/
def Env : Type := List Char → Option (List Char)

def supabaseUrlVar : List Char := "NEXT_PUBLIC_SUPABASE_URL".toList

def supabaseAnonKeyVar : List Char := "NEXT_PUBLIC_SUPABASE_ANON_KEY".toList

def r2AccountIdVar : List Char := "R2_ACCOUNT_ID".toList

def r2AccessKeyIdVar : List Char := "R2_ACCESS_KEY_ID".toList

def r2SecretAccessKeyVar : List Char := "R2_SECRET_ACCESS_KEY".toList

def r2BucketNameVar : List Char := "R2_BUCKET_NAME".toList

def r2PublicUrlVar : List Char := "R2_PUBLIC_URL".toList

def geminiApiKeyVar : List Char := "GEMINI_API_KEY".toList

/-- The `required_vars` list of `load_environment` (lines 72-79). -/
def requiredVars : List (List Char) :=
  [supabaseUrlVar, supabaseAnonKeyVar, r2AccountIdVar,
   r2AccessKeyIdVar, r2SecretAccessKeyVar, r2BucketNameVar]

/-- `missing_vars = [var for var in required_vars if not os.getenv(var)]` (line 81). -/
def missingVars (env : Env) : List (List Char) :=
  requiredVars.filter (fun v => !pyTruthyOpt (env v))

/-- The error text shown when variables are missing (line 83). -/
def missingMsg (missing : List (List Char)) : List Char :=
  "Missing environment variables: ".toList ++ List.intercalate ", ".toList missing

/-- `load_environment` (lines 62-87): aborts with the enumerated missing
names when any of `requiredVars` is unset or empty; on success records
`gemini_api_key = os.getenv('GEMINI_API_KEY', '').strip('"')`. -/
def loadEnvironment (env : Env) : Except (List Char) (List Char) :=
  let missing := missingVars env
  if missing.isEmpty then
    Except.ok (pyStripQuotes ((env geminiApiKeyVar).getD []))
  else
    Except.error (missingMsg missing)

/-- The JSON metadata dict returned by the AI: each key may be absent. -/
structure Metadata where
  title : Option (List Char)
  description : Option (List Char)
  category : Option (List Char)
  tags : Option (List (List Char))
deriving DecidableEq

/-- The mutable form/session state held by the `WallpaperPublisher` object. -/
structure FormState where
  selected_image_path : Option (List Char)
  preview_image : Option Unit
  generated_metadata : Option Metadata
  image_path_label : List Char
  preview_label : List Char
  title_entry : List Char
  category_var : List Char
  tags_entry : List Char
  description_text : List Char
  gemini_key_entry : List Char
  generate_btn_enabled : Bool
  publish_btn_enabled : Bool
  status_text : List Char
deriving DecidableEq

/-- `check_ready_state` (lines 260-275): recompute both button states. -/
def checkReadyState (st : FormState) : FormState :=
  let apiKey := pyStrip st.gemini_key_entry
  { st with
    generate_btn_enabled := pyTruthy apiKey && pyTruthyOpt st.selected_image_path
    publish_btn_enabled :=
      pyTruthyOpt st.selected_image_path &&
      pyTruthy (pyStrip st.title_entry) &&
      pyTruthy (pyStrip st.category_var) }

/-- `on_api_key_change` (lines 211-217): recompute the generate button only. -/
def onApiKeyChange (st : FormState) : FormState :=
  { st with
    generate_btn_enabled :=
      pyTruthy (pyStrip st.gemini_key_entry) && pyTruthyOpt st.selected_image_path }

/-- `clear_all` (lines 457-472): reset every field, then `check_ready_state`. -/
def clearAll (st : FormState) : FormState :=
  checkReadyState
    { st with
      selected_image_path := none
      preview_image := none
      generated_metadata := none
      image_path_label := "No image selected".toList
      preview_label := "No image selected".toList
      title_entry := []
      category_var := []
      tags_entry := []
      description_text := []
      status_text := "Ready".toList }

/-- `_update_metadata_ui` (lines 345-362): each field is overwritten from
the dict, missing keys defaulting to empty, tags joined with `", "`;
finishes with `check_ready_state`. -/
def updateMetadataUI (md : Metadata) (st : FormState) : FormState :=
  checkReadyState
    { st with
      title_entry := md.title.getD []
      category_var := md.category.getD []
      tags_entry := List.intercalate ", ".toList (md.tags.getD [])
      description_text := md.description.getD []
      generated_metadata := some md
      status_text := "Metadata generated successfully!".toList }

def fenceJson : List Char := "```json".toList

def fence : List Char := "```".toList

/-- The response-text normalisation of `_generate_metadata_thread`
(lines 329-334): strip outer whitespace, then remove a ```` ```json ````
or ```` ``` ```` fence via the slices `[7:-3]` / `[3:-3]`; the result is
what is handed to `json.loads`. -/
def stripCodeFence (raw : List Char) : List Char :=
  let t := pyStrip raw
  if startsWith fenceJson t then
    (t.drop 7).take (t.length - 3 - 7)
  else if startsWith fence t then
    (t.drop 3).take (t.length - 3 - 3)
  else t

/-- Tag parsing at publish time (line 423):
`[tag.strip() for tag in tags_entry.split(',') if tag.strip()]`. -/
def parseTags (s : List Char) : List (List Char) :=
  ((splitOn ',' s).map pyStrip).filter (fun t => !t.isEmpty)

/-- The row inserted into the `wallpapers` table (lines 425-431). -/
structure WallpaperRecord where
  title : List Char
  description : List Char
  category : List Char
  tags : List (List Char)
  image_url : List Char
deriving DecidableEq

/-- An external call issued by the publish sequence.  `deleteObject` is
included so that "no compensating delete" is expressible; the code never
emits it. -/
inductive REvent where
  | uploadObject (bucket : Option (List Char)) (objectName contentType : List Char)
  | insertRow (record : WallpaperRecord)
  | deleteObject (bucket : Option (List Char)) (objectName : List Char)
deriving DecidableEq

/-- `_publish_error` (lines 452-455): surface the failure text. -/
def publishError (e : List Char) (st : FormState) : FormState :=
  { st with status_text := "Publishing failed: ".toList ++ e }

def insertFailMsg : List Char := "Failed to insert into database".toList

/-- `_publish_success` (lines 446-450): report success, then `clear_all`. -/
def publishSuccess (st : FormState) : FormState :=
  clearAll { st with status_text := "Wallpaper published successfully!".toList }

/-- `_publish_wallpaper_thread` (lines 396-444).  `uuid` is the identifier
produced by `uuid.uuid4()`; `upRes` and `insRes` are the outcomes of the
storage upload and the database insert (`insRes` carrying `result.data`
as an opaque row list).  Returns the trace of external calls, the overall
outcome (`ok` with the public URL, or `error` with the surfaced text) and
the resulting form state. -/
def publishThread (env : Env) (uuid : List Char)
    (upRes : Except (List Char) Unit) (insRes : Except (List Char) (List Unit))
    (st : FormState) : List REvent × Except (List Char) (List Char) × FormState :=
  let path := st.selected_image_path.getD []
  let ext := pySuffix path
  let uniqueFilename := uuid ++ ext
  let bucket := env r2BucketNameVar
  let contentType := "image/".toList ++ ext.drop 1
  let uploadEv := REvent.uploadObject bucket uniqueFilename contentType
  match upRes with
  | Except.error e => ([uploadEv], Except.error e, publishError e st)
  | Except.ok _ =>
    let publicUrl := pyFStr (env r2PublicUrlVar) ++ '/' :: uniqueFilename
    let record : WallpaperRecord :=
      { title := pyStrip st.title_entry
        description := pyStrip st.description_text
        category := pyStrip st.category_var
        tags := parseTags st.tags_entry
        image_url := publicUrl }
    match insRes with
    | Except.error e =>
      ([uploadEv, REvent.insertRow record], Except.error e, publishError e st)
    | Except.ok rows =>
      if rows.isEmpty then
        ([uploadEv, REvent.insertRow record], Except.error insertFailMsg,
          publishError insertFailMsg st)
      else
        ([uploadEv, REvent.insertRow record], Except.ok publicUrl, publishSuccess st)

/-- Whether a publish outcome is a failure. -/
def isFailure (r : Except (List Char) (List Char)) : Bool :=
  match r with
  | Except.error _ => true
  | Except.ok _ => false

/-- A concrete environment that sets exactly the six variables of
`requiredVars` and nothing else (in particular not `R2_PUBLIC_URL`). -/
def envSixOnly : Env := fun v => if v ∈ requiredVars then some "value".toList else none

/-- A concrete environment for exercising the publish sequence. -/
def wEnv : Env := fun v =>
  if v = r2PublicUrlVar then some "https://cdn.example.com".toList
  else if v = r2BucketNameVar then some "wallpapers".toList
  else none

/-- A concrete filled-in form state. -/
def wState : FormState :=
  { selected_image_path := some "photo.png".toList
    preview_image := some ()
    generated_metadata := none
    image_path_label := "photo.png".toList
    preview_label := []
    title_entry := "Mountain".toList
    category_var := "nature".toList
    tags_entry := "peak, snow".toList
    description_text := "A mountain at dawn".toList
    gemini_key_entry := " my-key ".toList
    generate_btn_enabled := false
    publish_btn_enabled := false
    status_text := "Ready".toList }

/-! ### Helper lemmas on the string primitives -/

theorem dropWhile_head_false (p : Char → Bool) :
    ∀ (l : List Char) (c : Char), (l.dropWhile p).head? = some c → p c = false := by
  intro l
  induction l with
  | nil => intro c h; simp [List.dropWhile] at h
  | cons a tl ih =>
    intro c h
    rw [List.dropWhile_cons] at h
    by_cases hp : p a = true
    · rw [if_pos hp] at h
      exact ih c h
    · rw [if_neg hp] at h
      simp only [List.head?_cons, Option.some.injEq] at h
      subst h
      simpa using hp

theorem dropWhile_eq_self_of_head (p : Char → Bool) (l : List Char)
    (h : ∀ c, l.head? = some c → p c = false) : l.dropWhile p = l := by
  cases l with
  | nil => rfl
  | cons a tl =>
    have ha : p a = false := h a rfl
    rw [List.dropWhile_cons, ha]
    simp

theorem head?_append_left (l₁ l₂ : List Char) (h : l₁ ≠ []) :
    (l₁ ++ l₂).head? = l₁.head? := by
  cases l₁ with
  | nil => exact absurd rfl h
  | cons a t => rfl

theorem getLast?_append_right (l₁ l₂ : List Char) (h : l₂ ≠ []) :
    (l₁ ++ l₂).getLast? = l₂.getLast? := by
  rw [← List.head?_reverse, List.reverse_append,
    head?_append_left _ _ (by simpa using h), List.head?_reverse]

theorem dropWhile_getLast?_of_ne_nil (p : Char → Bool) :
    ∀ (l : List Char), l.dropWhile p ≠ [] → (l.dropWhile p).getLast? = l.getLast? := by
  intro l
  induction l with
  | nil => intro _; rfl
  | cons a tl ih =>
    intro h
    rw [List.dropWhile_cons] at h ⊢
    by_cases hp : p a = true
    · rw [if_pos hp] at h ⊢
      rw [ih h]
      cases tl with
      | nil => exact absurd (rfl : List.dropWhile p ([] : List Char) = []) h
      | cons b tl2 => rw [List.getLast?_cons_cons]
    · rw [if_neg hp]

theorem pyStrip_head_not_space (l : List Char) (c : Char)
    (h : (pyStrip l).head? = some c) : isPySpace c = false := by
  unfold pyStrip pyRStrip at h
  rw [List.head?_reverse] at h
  have hne : (pyLStrip l).reverse.dropWhile isPySpace ≠ [] := by
    intro hc
    rw [hc] at h
    simp at h
  rw [dropWhile_getLast?_of_ne_nil _ _ hne, List.getLast?_reverse] at h
  exact dropWhile_head_false isPySpace l c h

theorem pyStrip_getLast_not_space (l : List Char) (c : Char)
    (h : (pyStrip l).getLast? = some c) : isPySpace c = false := by
  unfold pyStrip pyRStrip at h
  rw [List.getLast?_reverse] at h
  exact dropWhile_head_false isPySpace (pyLStrip l).reverse c h

theorem pyStrip_eq_self (l : List Char)
    (hh : ∀ c, l.head? = some c → isPySpace c = false)
    (hl : ∀ c, l.getLast? = some c → isPySpace c = false) : pyStrip l = l := by
  unfold pyStrip pyLStrip pyRStrip
  rw [dropWhile_eq_self_of_head _ _ hh]
  rw [dropWhile_eq_self_of_head]
  · exact l.reverse_reverse
  · intro c hc
    exact hl c (by rwa [List.head?_reverse] at hc)

theorem pyStrip_idem (l : List Char) : pyStrip (pyStrip l) = pyStrip l :=
  pyStrip_eq_self _ (pyStrip_head_not_space l) (pyStrip_getLast_not_space l)

theorem exists_nonspace_of_stripped (t : List Char) (hne : t ≠ [])
    (hs : pyStrip t = t) : ∃ c ∈ t, isPySpace c = false := by
  by_contra hcon
  push_neg at hcon
  have hall : ∀ c ∈ t, isPySpace c = true := by
    intro c hc
    have := hcon c hc
    simpa using this
  have hnil : pyLStrip t = [] := by
    unfold pyLStrip
    rw [List.dropWhile_eq_nil_iff]
    exact hall
  have : pyStrip t = [] := by
    unfold pyStrip
    rw [hnil]
    rfl
  exact hne (hs ▸ this)

theorem pyTruthy_iff (l : List Char) : pyTruthy l = true ↔ l ≠ [] := by
  cases l <;> simp [pyTruthy]

theorem startsWith_append_self (p r : List Char) : startsWith p (p ++ r) = true := by
  induction p with
  | nil => rfl
  | cons a ps ih => simp [startsWith, ih]

theorem startsWith_append_cancel (a p s : List Char) :
    startsWith (a ++ p) (a ++ s) = startsWith p s := by
  induction a with
  | nil => rfl
  | cons c cs ih => simp [startsWith, ih]

theorem startsWith_head_agree :
    ∀ p s : List Char, startsWith p s = true → p = [] ∨ p.head? = s.head? := by
  intro p s h
  cases p with
  | nil => exact Or.inl rfl
  | cons a ps =>
    right
    cases s with
    | nil => simp [startsWith] at h
    | cons b bs =>
      simp only [startsWith, Bool.and_eq_true, beq_iff_eq] at h
      simp [h.1]

/-! ### Claim theorems -/

/-- C1 counterexample: an environment that sets the six variables of
`required_vars` but leaves the object-storage public base URL
(`R2_PUBLIC_URL`) unset passes startup validation — `load_environment`
succeeds rather than aborting with that name, so the claimed validation
of all seven spec-listed keys does not hold. -/
theorem load_environment_counterexample :
    envSixOnly r2PublicUrlVar = none ∧ loadEnvironment envSixOnly = Except.ok [] := by
  refine ⟨?_, ?_⟩ <;> rfl

/-- C1 (amended): `load_environment` validates exactly the six keys of
`required_vars` — database endpoint URL, database anonymous access key,
object-storage account identifier, access key id, secret key, and bucket
name — aborting with the enumerated list of exactly the missing names if
any of them is absent or empty; the object-storage public base URL is not
among the validated keys. -/
theorem load_environment_validates_six (env : Env) :
    (loadEnvironment env = Except.error (missingMsg (missingVars env)) ↔
      missingVars env ≠ []) ∧
    (∀ v, v ∈ missingVars env ↔ v ∈ requiredVars ∧ pyTruthyOpt (env v) = false) ∧
    r2PublicUrlVar ∉ requiredVars := by
  refine ⟨⟨?_, ?_⟩, ?_, by decide⟩
  · intro h hn
    simp [loadEnvironment, hn] at h
  · intro hne
    have hfalse : (missingVars env).isEmpty = false := by
      cases hmv : missingVars env with
      | nil => exact absurd hmv hne
      | cons a t => rfl
    simp [loadEnvironment, hfalse]
  · intro v
    simp [missingVars, List.mem_filter]

/-- C1 witness: with everything unset, startup aborts with all six names. -/
theorem load_environment_validates_six_witness :
    loadEnvironment (fun _ => none) =
      Except.error (missingMsg (missingVars (fun _ => none))) :=
  (load_environment_validates_six (fun _ => none)).1.mpr (by decide)

/-- C2: after `check_ready_state`, the publish action is enabled iff an
image is selected, the stripped title is non-empty and the stripped
category is non-empty; the result does not depend on the description or
tags fields. -/
theorem publish_ready_iff (st : FormState) :
    ((checkReadyState st).publish_btn_enabled = true ↔
      pyTruthyOpt st.selected_image_path = true ∧
      pyStrip st.title_entry ≠ [] ∧ pyStrip st.category_var ≠ []) ∧
    (∀ d tg, (checkReadyState
        { st with description_text := d, tags_entry := tg }).publish_btn_enabled =
      (checkReadyState st).publish_btn_enabled) := by
  constructor
  · simp [checkReadyState, Bool.and_eq_true, pyTruthy_iff, and_assoc]
  · intro d tg
    rfl

/-- C2 witness: the concrete filled-in state enables publishing. -/
theorem publish_ready_iff_witness : (checkReadyState wState).publish_btn_enabled = true :=
  (publish_ready_iff wState).1.mpr ⟨by decide, by decide, by decide⟩

/-- C8: after `check_ready_state`, the AI-generation action is enabled iff
an image is selected and the stripped API key entry is non-empty, and
`on_api_key_change` computes the same enablement. -/
theorem generate_ready_iff (st : FormState) :
    ((checkReadyState st).generate_btn_enabled = true ↔
      pyTruthyOpt st.selected_image_path = true ∧ pyStrip st.gemini_key_entry ≠ []) ∧
    (onApiKeyChange st).generate_btn_enabled = (checkReadyState st).generate_btn_enabled := by
  constructor
  · simp [checkReadyState, Bool.and_eq_true, pyTruthy_iff, and_comm]
  · rfl

/-- C8 witness: the concrete filled-in state enables AI generation. -/
theorem generate_ready_iff_witness : (checkReadyState wState).generate_btn_enabled = true :=
  (generate_ready_iff wState).1.mpr ⟨by decide, by decide⟩

/-- C9: `clear_all` resets selected file, preview, title, category, tags
and description to empty, for every prior state. -/
theorem clear_all_resets (st : FormState) :
    (clearAll st).selected_image_path = none ∧
    (clearAll st).preview_image = none ∧
    (clearAll st).title_entry = [] ∧
    (clearAll st).category_var = [] ∧
    (clearAll st).tags_entry = [] ∧
    (clearAll st).description_text = [] :=
  ⟨rfl, rfl, rfl, rfl, rfl, rfl⟩

/-- C4: applying the describe result
`{"title":"T","description":"D","category":"nature","tags":["a","b"]}`
sets title to `"T"`, category to `"nature"`, tags to `"a, b"` and
description to `"D"` whatever the fields held before; a result with all
keys missing sets all four fields to empty. -/
theorem metadata_overwrite (st : FormState) :
    (updateMetadataUI ⟨some "T".toList, some "D".toList, some "nature".toList,
        some ["a".toList, "b".toList]⟩ st).title_entry = "T".toList ∧
    (updateMetadataUI ⟨some "T".toList, some "D".toList, some "nature".toList,
        some ["a".toList, "b".toList]⟩ st).category_var = "nature".toList ∧
    (updateMetadataUI ⟨some "T".toList, some "D".toList, some "nature".toList,
        some ["a".toList, "b".toList]⟩ st).tags_entry = "a, b".toList ∧
    (updateMetadataUI ⟨some "T".toList, some "D".toList, some "nature".toList,
        some ["a".toList, "b".toList]⟩ st).description_text = "D".toList ∧
    (updateMetadataUI ⟨none, none, none, none⟩ st).title_entry = [] ∧
    (updateMetadataUI ⟨none, none, none, none⟩ st).category_var = [] ∧
    (updateMetadataUI ⟨none, none, none, none⟩ st).tags_entry = [] ∧
    (updateMetadataUI ⟨none, none, none, none⟩ st).description_text = [] :=
  ⟨rfl, rfl, rfl, rfl, rfl, rfl, rfl, rfl⟩

/-- C10: the inserted tags list splits the entry on commas, strips each
segment and discards empty ones; every kept tag is non-empty, already
stripped and contains a non-whitespace character, and an empty entry
yields the empty list. -/
theorem tags_parsing (s : List Char) :
    parseTags [] = [] ∧
    parseTags s = ((splitOn ',' s).map pyStrip).filter (fun t => !t.isEmpty) ∧
    ∀ t ∈ parseTags s, t ≠ [] ∧ pyStrip t = t ∧ ∃ c ∈ t, isPySpace c = false := by
  refine ⟨rfl, rfl, ?_⟩
  intro t ht
  unfold parseTags at ht
  rw [List.mem_filter] at ht
  obtain ⟨hmap, hne'⟩ := ht
  have hne : t ≠ [] := by
    intro hnil
    rw [hnil] at hne'
    simp at hne'
  rw [List.mem_map] at hmap
  obtain ⟨x, _, hx⟩ := hmap
  have hstr : pyStrip t = t := by
    rw [← hx]
    exact pyStrip_idem x
  exact ⟨hne, hstr, exists_nonspace_of_stripped t hne hstr⟩

/-- C10 witness: the tag kept from `" a ,, b "` is non-empty and stripped. -/
theorem tags_parsing_witness :
    "a".toList ≠ [] ∧ pyStrip "a".toList = "a".toList ∧
      ∃ c ∈ "a".toList, isPySpace c = false :=
  (tags_parsing " a ,, b ".toList).2.2 "a".toList (by decide)

theorem startsWith_false_of_heads (p s : List Char) (hp : p ≠ [])
    (hne : p.head? ≠ s.head?) : startsWith p s = false := by
  cases hsw : startsWith p s
  · rfl
  · rcases startsWith_head_agree p s hsw with h | h
    · exact absurd h hp
    · exact absurd h hne

/-- C3: a response fenced as ```` ```json … ``` ````, and one fenced with
plain ```` ``` ```` markers, normalise to exactly the same text as the
unfenced JSON object, so `json.loads` receives identical input and yields
identical metadata. -/
theorem fenced_parse_eq (J : List Char)
    (hbrace : J.head? = some '\x7b')
    (hstrip : pyStrip J = J) :
    stripCodeFence (fenceJson ++ J ++ fence) = stripCodeFence J ∧
    stripCodeFence (fence ++ J ++ fence) = stripCodeFence J := by
  have hJne : J ≠ [] := by
    intro h
    rw [h] at hbrace
    simp at hbrace
  have hnofj : startsWith fenceJson J = false := by
    apply startsWith_false_of_heads _ _ (by decide)
    rw [hbrace]
    decide
  have hnof : startsWith fence J = false := by
    apply startsWith_false_of_heads _ _ (by decide)
    rw [hbrace]
    decide
  have hunfenced : stripCodeFence J = J := by
    simp [stripCodeFence, hstrip, hnofj, hnof]
  have hhead : ∀ (a : List Char), a.head? = fence.head? →
      ∀ c, (a ++ (J ++ fence)).head? = some c → isPySpace c = false := by
    intro a ha c hc
    have hane : a ≠ [] := by
      intro h
      rw [h] at ha
      exact absurd ha.symm (by decide)
    rw [head?_append_left _ _ hane, ha] at hc
    have h2 : fence.head?.map isPySpace = some false := by decide
    rw [hc] at h2
    simpa using h2
  have hlast : ∀ (a : List Char), ∀ c, (a ++ (J ++ fence)).getLast? = some c →
      isPySpace c = false := by
    intro a c hc
    rw [← List.append_assoc, getLast?_append_right _ _ (by decide)] at hc
    have h2 : fence.getLast?.map isPySpace = some false := by decide
    rw [hc] at h2
    simpa using h2
  have hfjhead : fenceJson.head? = fence.head? := by decide
  have hlen1 : (fenceJson ++ (J ++ fence)).length = 7 + (J.length + 3) := by
    rw [List.length_append, List.length_append,
      (by decide : fenceJson.length = 7), (by decide : fence.length = 3)]
  have hlen2 : (fence ++ (J ++ fence)).length = 3 + (J.length + 3) := by
    rw [List.length_append, List.length_append,
      (by decide : fence.length = 3)]
  constructor
  · have hstrip1 : pyStrip (fenceJson ++ (J ++ fence)) = fenceJson ++ (J ++ fence) :=
      pyStrip_eq_self _ (hhead fenceJson hfjhead) (hlast fenceJson)
    rw [hunfenced]
    simp only [stripCodeFence, List.append_assoc, hstrip1, startsWith_append_self, if_true]
    rw [List.drop_left' (by decide : fenceJson.length = 7), hlen1,
      (by omega : 7 + (J.length + 3) - 3 - 7 = J.length),
      List.take_left' rfl]
  · have hstrip2 : pyStrip (fence ++ (J ++ fence)) = fence ++ (J ++ fence) :=
      pyStrip_eq_self _ (hhead fence rfl) (hlast fence)
    have hnofj2 : startsWith fenceJson (fence ++ (J ++ fence)) = false := by
      rw [(by decide : fenceJson = fence ++ "json".toList), startsWith_append_cancel]
      apply startsWith_false_of_heads _ _ (by decide)
      rw [head?_append_left _ _ hJne, hbrace]
      decide
    rw [hunfenced]
    simp only [stripCodeFence, List.append_assoc, hstrip2, hnofj2, Bool.false_eq_true,
      if_false, startsWith_append_self, if_true]
    rw [List.drop_left' (by decide : fence.length = 3), hlen2,
      (by omega : 3 + (J.length + 3) - 3 - 3 = J.length),
      List.take_left' rfl]

/-- C3 witness: a concrete JSON object text, fenced both ways. -/
theorem fenced_parse_eq_witness :
    "\x7b\"a\": 1\x7d".toList.head? = some '\x7b' ∧
    (stripCodeFence (fenceJson ++ "\x7b\"a\": 1\x7d".toList ++ fence) =
        stripCodeFence "\x7b\"a\": 1\x7d".toList ∧
      stripCodeFence (fence ++ "\x7b\"a\": 1\x7d".toList ++ fence) =
        stripCodeFence "\x7b\"a\": 1\x7d".toList) :=
  ⟨by decide, fenced_parse_eq _ (by decide) (by decide)⟩

/-- C5: on a successful publish of a `.png` selection, the trace is
exactly one upload of `uuid ++ ".png"` followed by exactly one insert
whose `image_url` is the configured public base, `"/"`, and the object
name; the outcome carries that URL; the form is reset to its empty
initial fields; and when the upload fails no insert is ever issued. -/
theorem publish_success_path (env : Env) (uuid : List Char) (st : FormState)
    (path base : List Char)
    (hsel : st.selected_image_path = some path)
    (hext : pySuffix path = ".png".toList)
    (hbase : env r2PublicUrlVar = some base) :
    (publishThread env uuid (Except.ok ()) (Except.ok [()]) st).1 =
      [REvent.uploadObject (env r2BucketNameVar) (uuid ++ ".png".toList)
        ("image/png".toList),
       REvent.insertRow
         { title := pyStrip st.title_entry
           description := pyStrip st.description_text
           category := pyStrip st.category_var
           tags := parseTags st.tags_entry
           image_url := base ++ '/' :: (uuid ++ ".png".toList) }] ∧
    (publishThread env uuid (Except.ok ()) (Except.ok [()]) st).2.1 =
      Except.ok (base ++ '/' :: (uuid ++ ".png".toList)) ∧
    (publishThread env uuid (Except.ok ()) (Except.ok [()]) st).2.2.selected_image_path
      = none ∧
    (publishThread env uuid (Except.ok ()) (Except.ok [()]) st).2.2.preview_image = none ∧
    (publishThread env uuid (Except.ok ()) (Except.ok [()]) st).2.2.title_entry = [] ∧
    (publishThread env uuid (Except.ok ()) (Except.ok [()]) st).2.2.category_var = [] ∧
    (publishThread env uuid (Except.ok ()) (Except.ok [()]) st).2.2.tags_entry = [] ∧
    (publishThread env uuid (Except.ok ()) (Except.ok [()]) st).2.2.description_text = [] ∧
    (∀ e insRes r, REvent.insertRow r ∉ (publishThread env uuid (Except.error e) insRes st).1) := by
  have hmain : publishThread env uuid (Except.ok ()) (Except.ok [()]) st =
      ([REvent.uploadObject (env r2BucketNameVar) (uuid ++ ".png".toList)
          ("image/png".toList),
        REvent.insertRow
          { title := pyStrip st.title_entry
            description := pyStrip st.description_text
            category := pyStrip st.category_var
            tags := parseTags st.tags_entry
            image_url := base ++ '/' :: (uuid ++ ".png".toList) }],
       Except.ok (base ++ '/' :: (uuid ++ ".png".toList)),
       publishSuccess st) := by
    simp [publishThread, hsel, hext, hbase, pyFStr]
  refine ⟨?_, ?_, ?_, ?_, ?_, ?_, ?_, ?_, ?_⟩
  · rw [hmain]
  · rw [hmain]
  · rw [hmain]
    rfl
  · rw [hmain]
    rfl
  · rw [hmain]
    rfl
  · rw [hmain]
    rfl
  · rw [hmain]
    rfl
  · rw [hmain]
    rfl
  · intro e insRes r
    simp [publishThread]

/-- C5 witness: concrete publish of `photo.png` titled `"Mountain"`. -/
theorem publish_success_path_witness :
    wState.selected_image_path = some "photo.png".toList ∧
    pySuffix "photo.png".toList = ".png".toList ∧
    (publishThread wEnv "42".toList (Except.ok ()) (Except.ok [()]) wState).1 =
      [REvent.uploadObject (wEnv r2BucketNameVar) ("42".toList ++ ".png".toList)
        ("image/png".toList),
       REvent.insertRow
         { title := pyStrip wState.title_entry
           description := pyStrip wState.description_text
           category := pyStrip wState.category_var
           tags := parseTags wState.tags_entry
           image_url := "https://cdn.example.com".toList ++ '/' ::
             ("42".toList ++ ".png".toList) }] ∧
    (publishThread wEnv "42".toList (Except.ok ()) (Except.ok [()]) wState).2.1 =
      Except.ok ("https://cdn.example.com".toList ++ '/' :: ("42".toList ++ ".png".toList)) :=
  ⟨rfl, by decide,
    (publish_success_path wEnv "42".toList wState "photo.png".toList
      "https://cdn.example.com".toList rfl (by decide) (by decide)).1,
    (publish_success_path wEnv "42".toList wState "photo.png".toList
      "https://cdn.example.com".toList rfl (by decide) (by decide)).2.1⟩

/-- C6: when the storage upload raises, the trace is exactly one upload
and contains no insert, the outcome is a failure carrying the upload's
error text (also surfaced in the status message), and every entered form
field is left exactly as it was. -/
theorem upload_failure_no_insert (env : Env) (uuid e : List Char)
    (insRes : Except (List Char) (List Unit)) (st : FormState) :
    (∃ b n c, (publishThread env uuid (Except.error e) insRes st).1 =
      [REvent.uploadObject b n c]) ∧
    (∀ r, REvent.insertRow r ∉ (publishThread env uuid (Except.error e) insRes st).1) ∧
    (publishThread env uuid (Except.error e) insRes st).2.1 = Except.error e ∧
    (publishThread env uuid (Except.error e) insRes st).2.2.status_text =
      "Publishing failed: ".toList ++ e ∧
    (publishThread env uuid (Except.error e) insRes st).2.2.selected_image_path =
      st.selected_image_path ∧
    (publishThread env uuid (Except.error e) insRes st).2.2.title_entry = st.title_entry ∧
    (publishThread env uuid (Except.error e) insRes st).2.2.category_var = st.category_var ∧
    (publishThread env uuid (Except.error e) insRes st).2.2.tags_entry = st.tags_entry ∧
    (publishThread env uuid (Except.error e) insRes st).2.2.description_text =
      st.description_text := by
  refine ⟨⟨_, _, _, rfl⟩, ?_, rfl, rfl, rfl, rfl, rfl, rfl, rfl⟩
  intro r
  simp [publishThread]

/-- C6 witness: a concrete failed upload surfaces its error text. -/
theorem upload_failure_no_insert_witness :
    (publishThread wEnv "42".toList (Except.error "boom".toList) (Except.ok []) wState).2.1 =
      Except.error "boom".toList :=
  (upload_failure_no_insert wEnv "42".toList "boom".toList (Except.ok []) wState).2.2.1

/-- C7: when the upload succeeds but the insert raises or returns no row
data, the outcome is a publish failure (the no-row case with the fixed
database-failure text), and no compensating delete of the uploaded object
appears in the trace. -/
theorem insert_failure_no_delete (env : Env) (uuid : List Char) (st : FormState)
    (e : List Char) (insRes : Except (List Char) (List Unit))
    (h : insRes = Except.error e ∨ insRes = Except.ok []) :
    isFailure (publishThread env uuid (Except.ok ()) insRes st).2.1 = true ∧
    (∃ msg, (publishThread env uuid (Except.ok ()) insRes st).2.1 = Except.error msg ∧
      (publishThread env uuid (Except.ok ()) insRes st).2.2.status_text =
        "Publishing failed: ".toList ++ msg) ∧
    (insRes = Except.ok [] →
      (publishThread env uuid (Except.ok ()) insRes st).2.1 = Except.error insertFailMsg) ∧
    (∀ b n, REvent.deleteObject b n ∉ (publishThread env uuid (Except.ok ()) insRes st).1) := by
  rcases h with h | h <;> subst h
  · refine ⟨rfl, ⟨e, rfl, rfl⟩, ?_, ?_⟩
    · intro hcon
      cases hcon
    · intro b n
      simp [publishThread]
  · refine ⟨rfl, ⟨insertFailMsg, rfl, rfl⟩, fun _ => rfl, ?_⟩
    intro b n
    simp [publishThread]

/-- C7 witness: a concrete insert error yields a publish failure. -/
theorem insert_failure_no_delete_witness :
    isFailure (publishThread wEnv "42".toList (Except.ok ())
      (Except.error "db down".toList) wState).2.1 = true :=
  (insert_failure_no_delete wEnv "42".toList wState "db down".toList
    (Except.error "db down".toList) (Or.inl rfl)).1

end WP
